import Mathlib

/-!
Verification development for the gym workout tracker (`src/gym_app_ai.py`).

The program is sequential glue code around three pieces of logic:

* `get_last_weight` — history lookup over a remote spreadsheet with fallback
  to a static routine table (`DEFAULT_ROUTINE`);
* `ask_gemini_coach` — a single text-generation call whose reply is
  code-fence-stripped and parsed as JSON, with a fixed fallback dictionary on
  any exception;
* the UI log action, which builds an eight-element `row_data` list and appends
  it to the spreadsheet.

We embed the Python values these functions manipulate as `PyVal`, model the
remote spreadsheet as a list of positional rows (`List PyVal` per row, in the
fixed column order Date, Exercise, Weight, Sets, Reps, Difficulty,
Next_Weight, Message), and model each external call by an explicit parameter
carrying its outcome (`Except Unit` for the sheet fetch, `GeminiResponse` for
the text-generation call).  Python exceptions swallowed by the `try/except`
blocks are modelled by `Option`/`Except` error values.
-/

/-- Embedding of the Python values flowing through the program: JSON values
returned by `json.loads`, and spreadsheet cell values returned by
`get_all_records` (which yields `int`, `float` or `str` cells).  Python
floats are modelled as exact rationals. -/
inductive PyVal : Type where
  | none : PyVal
  | bool : Bool → PyVal
  | int : Int → PyVal
  | float : Rat → PyVal
  | str : String → PyVal
  | list : List PyVal → PyVal
  | dict : List (String × PyVal) → PyVal
deriving Repr

/-- Python `d[key]` on a dict: the last binding for the key wins (JSON object
parsing overwrites duplicate keys, and our parser keeps pairs in source
order).  `Option.none` models the `KeyError` / `TypeError` raised when the
value is not a dict or the key is absent. -/
def pyGetItem : PyVal → String → Option PyVal
  | PyVal.dict kvs, key =>
      (kvs.reverse.find? (fun kv => kv.fst == key)).map (fun kv => kv.snd)
  | _, _ => Option.none

/-- Truncation of a rational toward zero, the behaviour of Python `int()` on
a float.  `Int.div` is T-division, and `q.num / q.den` in lowest terms
truncates the rational toward zero. -/
def ratTruncTowardZero (q : Rat) : Int :=
  Int.tdiv q.num (Int.ofNat q.den)

/-- Characters stripped by Python `str.strip()` (the ASCII whitespace set;
the program's strings are ASCII). -/
def pyIsSpace (c : Char) : Bool :=
  c == ' ' || c == '\t' || c == '\n' || c == '\r' || c == '\x0b' || c == '\x0c'

/-- Python `str.strip()` over the character list. -/
def pyStripChars (cs : List Char) : List Char :=
  ((cs.dropWhile pyIsSpace).reverse.dropWhile pyIsSpace).reverse

/-- Python `str.strip()`. -/
def pyStrip (s : String) : String :=
  String.mk (pyStripChars s.data)

/-- One step of Python `str.replace(old, new)` over character lists: scan left
to right, replacing non-overlapping occurrences.  Fuel-indexed to make
termination immediate; `pyReplace` supplies enough fuel. -/
def pyReplaceAux (old nw : List Char) : Nat → List Char → List Char
  | 0, s => s
  | _ + 1, [] => []
  | fuel + 1, c :: rest =>
      if old.isPrefixOf (c :: rest) then
        nw ++ pyReplaceAux old nw fuel ((c :: rest).drop old.length)
      else
        c :: pyReplaceAux old nw fuel rest

/-- Python `str.replace(old, new)` for a nonempty `old` (the program only
replaces the nonempty strings three-backticks-json and three-backticks). -/
def pyReplace (s old nw : String) : String :=
  if old.data.isEmpty then s
  else String.mk (pyReplaceAux old.data nw.data (s.data.length + 1) s.data)

/-- Python `int(x)`: identity on ints, truncation toward zero on floats,
`True`/`False` map to 1/0, and a string is accepted when, after stripping
whitespace, it is an optional sign followed by one or more digits (we do not
model Python's digit-group underscores, which never arise here).
`Option.none` models the `ValueError`/`TypeError` that `int()` raises
otherwise, which `get_last_weight` swallows. -/
def pyIntOfDigits (ds : List Char) : Option Int :=
  if ds.isEmpty || !ds.all Char.isDigit then Option.none
  else Option.some (Int.ofNat (ds.foldl (fun acc c => acc * 10 + (c.toNat - 48)) 0))

def pyInt : PyVal → Option Int
  | PyVal.int n => Option.some n
  | PyVal.float q => Option.some (ratTruncTowardZero q)
  | PyVal.bool b => Option.some (if b then 1 else 0)
  | PyVal.str s =>
      match pyStripChars s.data with
      | '-' :: ds => (pyIntOfDigits ds).map (fun n => -n)
      | '+' :: ds => pyIntOfDigits ds
      | ds => pyIntOfDigits ds
  | _ => Option.none

/-! ## A model of `json.loads`

A recursive-descent JSON parser over character lists, covering the grammar
`json.loads` accepts: `null`, booleans, numbers (with optional fraction and
exponent; integral literals yield Python ints, others floats), strings with
the standard escapes, arrays and objects.  Recursions are fuel-indexed with
fuel `length + 1`, which every concrete run below stays within; `jsonLoads`
returns `Option.none` exactly where `json.loads` raises. -/

/-- JSON inter-token whitespace. -/
def jsonWs (c : Char) : Bool :=
  c == ' ' || c == '\t' || c == '\n' || c == '\r'

def skipWs (cs : List Char) : List Char :=
  cs.dropWhile jsonWs

def digitVal (c : Char) : Nat := c.toNat - 48

def digitsToNat (ds : List Char) : Nat :=
  ds.foldl (fun a c => a * 10 + digitVal c) 0

def hexVal (c : Char) : Option Nat :=
  if c.isDigit then Option.some (c.toNat - 48)
  else if 'a' ≤ c && c ≤ 'f' then Option.some (c.toNat - 87)
  else if 'A' ≤ c && c ≤ 'F' then Option.some (c.toNat - 55)
  else Option.none

/-- Decode a `\uXXXX` escape: four hex digits. -/
def parseHex4 : List Char → Option (Nat × List Char)
  | a :: b :: c :: d :: rest => do
      let x ← hexVal a
      let y ← hexVal b
      let z ← hexVal c
      let w ← hexVal d
      Option.some (((x * 16 + y) * 16 + z) * 16 + w, rest)
  | _ => Option.none

/-- Body of a JSON string, after the opening quote: characters up to the
closing quote, decoding escapes. -/
def parseStringBody : Nat → List Char → Option (List Char × List Char)
  | 0, _ => Option.none
  | _ + 1, [] => Option.none
  | fuel + 1, c :: rest =>
      if c == '"' then Option.some ([], rest)
      else if c == '\\' then
        match rest with
        | [] => Option.none
        | e :: rest' =>
            if e == 'u' then do
              let (n, rest2) ← parseHex4 rest'
              let (cs, rest3) ← parseStringBody fuel rest2
              Option.some (Char.ofNat n :: cs, rest3)
            else do
              let d ←
                if e == '"' then Option.some '"'
                else if e == '\\' then Option.some '\\'
                else if e == '/' then Option.some '/'
                else if e == 'b' then Option.some '\x08'
                else if e == 'f' then Option.some '\x0c'
                else if e == 'n' then Option.some '\n'
                else if e == 'r' then Option.some '\r'
                else if e == 't' then Option.some '\t'
                else Option.none
              let (cs, rest2) ← parseStringBody fuel rest'
              Option.some (d :: cs, rest2)
      else do
        let (cs, rest2) ← parseStringBody fuel rest
        Option.some (c :: cs, rest2)

/-- A JSON number: optional minus, integer part without leading zeros,
optional fraction, optional exponent.  Integral literals (no fraction, no
exponent) become Python ints, all others floats. -/
def parseNumber (cs : List Char) : Option (PyVal × List Char) :=
  let (neg, cs1) :=
    match cs with
    | '-' :: rest => (true, rest)
    | _ => (false, cs)
  let intDigits := cs1.takeWhile Char.isDigit
  let afterInt := cs1.drop intDigits.length
  if intDigits.isEmpty then Option.none
  else if intDigits.length > 1 && intDigits.headD '0' == '0' then Option.none
  else
    let (fracDigits, afterFrac, hasFrac) :=
      match afterInt with
      | '.' :: r =>
          let fd := r.takeWhile Char.isDigit
          (fd, r.drop fd.length, true)
      | _ => ([], afterInt, false)
    if hasFrac && fracDigits.isEmpty then Option.none
    else
      let (expVal, afterExp, hasExp, expOk) :=
        match afterFrac with
        | e :: r =>
            if e == 'e' || e == 'E' then
              let (eneg, r1) :=
                match r with
                | '-' :: r' => (true, r')
                | '+' :: r' => (false, r')
                | _ => (false, r)
              let ed := r1.takeWhile Char.isDigit
              if ed.isEmpty then ((0 : Int), afterFrac, true, false)
              else
                let n : Int := Int.ofNat (digitsToNat ed)
                (if eneg then -n else n, r1.drop ed.length, true, true)
            else ((0 : Int), afterFrac, false, true)
        | [] => ((0 : Int), afterFrac, false, true)
      if !expOk then Option.none
      else
        let mantNat : Nat := digitsToNat (intDigits ++ fracDigits)
        let mant : Rat := (Int.ofNat mantNat : Rat) / ((10 : Rat) ^ fracDigits.length)
        let scaled : Rat :=
          if expVal ≥ 0 then mant * (10 : Rat) ^ expVal.toNat
          else mant / ((10 : Rat) ^ (-expVal).toNat)
        let signed : Rat := if neg then -scaled else scaled
        let v : PyVal :=
          if hasFrac || hasExp then PyVal.float signed
          else PyVal.int (if neg then -(Int.ofNat mantNat) else Int.ofNat mantNat)
        Option.some (v, afterExp)

mutual

/-- A JSON value, allowing leading whitespace. -/
def parseValue : Nat → List Char → Option (PyVal × List Char)
  | 0, _ => Option.none
  | fuel + 1, cs =>
      match skipWs cs with
      | 'n' :: 'u' :: 'l' :: 'l' :: rest => Option.some (PyVal.none, rest)
      | 't' :: 'r' :: 'u' :: 'e' :: rest => Option.some (PyVal.bool true, rest)
      | 'f' :: 'a' :: 'l' :: 's' :: 'e' :: rest => Option.some (PyVal.bool false, rest)
      | '"' :: rest => do
          let (cs, rest2) ← parseStringBody (rest.length + 1) rest
          Option.some (PyVal.str (String.mk cs), rest2)
      | '[' :: rest => parseElems fuel rest
      | '\x7b' :: rest => parseMembers fuel rest
      | cs' => parseNumber cs'

/-- The elements of a JSON array, after the opening bracket. -/
def parseElems (fuel : Nat) (cs : List Char) : Option (PyVal × List Char) :=
  match fuel with
  | 0 => Option.none
  | fuel + 1 =>
      match skipWs cs with
      | ']' :: rest => Option.some (PyVal.list [], rest)
      | cs' => do
          let (v, rest) ← parseValue fuel cs'
          let (vs, rest2) ← parseElemsTail fuel rest
          match vs with
          | PyVal.list l => Option.some (PyVal.list (v :: l), rest2)
          | _ => Option.none

/-- After one array element: either a comma and more elements, or the
closing bracket. -/
def parseElemsTail (fuel : Nat) (cs : List Char) : Option (PyVal × List Char) :=
  match fuel with
  | 0 => Option.none
  | fuel + 1 =>
      match skipWs cs with
      | ']' :: rest => Option.some (PyVal.list [], rest)
      | ',' :: rest => do
          let (v, rest2) ← parseValue fuel rest
          let (vs, rest3) ← parseElemsTail fuel rest2
          match vs with
          | PyVal.list l => Option.some (PyVal.list (v :: l), rest3)
          | _ => Option.none
      | _ => Option.none

/-- The members of a JSON object, after the opening brace. -/
def parseMembers (fuel : Nat) (cs : List Char) : Option (PyVal × List Char) :=
  match fuel with
  | 0 => Option.none
  | fuel + 1 =>
      match skipWs cs with
      | '\x7d' :: rest => Option.some (PyVal.dict [], rest)
      | cs' => do
          let (k, v, rest) ← parseMember fuel cs'
          let (kvs, rest2) ← parseMembersTail fuel rest
          match kvs with
          | PyVal.dict l => Option.some (PyVal.dict ((k, v) :: l), rest2)
          | _ => Option.none

/-- One `"key": value` member. -/
def parseMember (fuel : Nat) (cs : List Char) : Option (String × PyVal × List Char) :=
  match fuel with
  | 0 => Option.none
  | fuel + 1 =>
      match skipWs cs with
      | '"' :: rest => do
          let (kcs, rest2) ← parseStringBody (rest.length + 1) rest
          match skipWs rest2 with
          | ':' :: rest3 => do
              let (v, rest4) ← parseValue fuel rest3
              Option.some (String.mk kcs, v, rest4)
          | _ => Option.none
      | _ => Option.none

/-- After one object member: either a comma and more members, or the
closing brace. -/
def parseMembersTail (fuel : Nat) (cs : List Char) : Option (PyVal × List Char) :=
  match fuel with
  | 0 => Option.none
  | fuel + 1 =>
      match skipWs cs with
      | '\x7d' :: rest => Option.some (PyVal.dict [], rest)
      | ',' :: rest => do
          let (k, v, rest2) ← parseMember fuel rest
          let (kvs, rest3) ← parseMembersTail fuel rest2
          match kvs with
          | PyVal.dict l => Option.some (PyVal.dict ((k, v) :: l), rest3)
          | _ => Option.none
      | _ => Option.none

end

/-- Model of Python `json.loads`: parse one JSON value and require only
whitespace after it (`json.loads` raises on extra data). -/
def jsonLoads (s : String) : Option PyVal :=
  match parseValue (s.data.length + 1) s.data with
  | Option.some (v, rest) => if (skipWs rest).isEmpty then Option.some v else Option.none
  | Option.none => Option.none

/-! ## The program under verification (`src/gym_app_ai.py`) -/

/-- One entry of the static routine table. -/
structure ExerciseSpec where
  exercise : String
  sets : Int
  reps : String
  default_weight : Int
deriving Repr, DecidableEq

/-- The static routine table, in the source's insertion order (Python dicts
iterate in insertion order, which the fallback scan of `get_last_weight`
relies on). -/
def DEFAULT_ROUTINE : List (String × List ExerciseSpec) :=
  [("Push",
    [⟨"Machine Chest Press", 3, "8-10", 45⟩,
     ⟨"Pec Deck (Fly)", 3, "8-10", 120⟩,
     ⟨"Machine Shoulder Press", 3, "10-12", 40⟩,
     ⟨"Cable Tricep Pushdowns", 4, "12-15", 50⟩,
     ⟨"Machine Incline Press", 3, "10", 45⟩,
     ⟨"Machine Lateral Raise", 4, "15", 15⟩]),
   ("Pull",
    [⟨"Lat Pulldown (Wide)", 3, "10-12", 70⟩,
     ⟨"Seated Cable Row", 3, "10-12", 70⟩,
     ⟨"Face Pulls", 4, "15", 30⟩,
     ⟨"Machine Bicep Curl", 3, "10-12", 30⟩,
     ⟨"Cable Hammer Curls", 4, "12", 30⟩,
     ⟨"Tricep Overhead Ext", 3, "12", 30⟩]),
   ("Legs",
    [⟨"Leg Press", 3, "10-12", 180⟩,
     ⟨"Seated Leg Curl", 3, "12-15", 90⟩,
     ⟨"Calf Raise Machine", 4, "15", 90⟩,
     ⟨"Leg Extensions", 3, "8", 90⟩,
     ⟨"Bulgarian Split Squats", 3, "10", 0⟩]),
   ("Cardio",
    [⟨"Incline Walk", 1, "40 mins", 0⟩])]

/-- The remote worksheet, modelled as its list of data rows in append order;
each row is the list of cell values in the fixed column order
Date, Exercise, Weight, Sets, Reps, Difficulty, Next_Weight, Message. -/
def SheetRows : Type := List (List PyVal)

/-- Cell of the `Exercise` column (index 1 of the fixed header order).
`get_all_records` pads a missing cell with the empty string. -/
def rowExercise (row : List PyVal) : PyVal :=
  row.getD 1 (PyVal.str "")

/-- Cell of the `Next_Weight` column (index 6 of the fixed header order). -/
def rowNextWeight (row : List PyVal) : PyVal :=
  row.getD 6 (PyVal.str "")

/-- The pandas comparison `df[ExerciseColumn] == exercise_name`: a cell equals
the Python string `name` exactly when it is that same string. -/
def pyEqStr : PyVal → String → Bool
  | PyVal.str s, t => s == t
  | _, _ => false

/-- The rows selected by `df[df[ExerciseColumn] == exercise_name]`, keeping
append order. -/
def matchingHistory (rows : List (List PyVal)) (name : String) : List (List PyVal) :=
  rows.filter (fun r => pyEqStr (rowExercise r) name)

/-- The fallback scan of `get_last_weight`: the two nested `for` loops over
`DEFAULT_ROUTINE` in insertion order, returning the first `default_weight`
whose exercise name matches, else 0. -/
def routineDefault (name : String) : Int :=
  match ((DEFAULT_ROUTINE.map Prod.snd).flatten.find? (fun ex => ex.exercise == name)) with
  | Option.some ex => ex.default_weight
  | Option.none => 0

/-- `get_last_weight(exercise_name)`.  The remote fetch
(`sheet.get_all_records()`) is passed in explicitly: `Except.error ()` models
any exception raised while fetching or building the DataFrame, all of which
the bare `except` swallows.  When the filtered history is nonempty the code
returns `int(last row's Next_Weight)`; a failing `int()` is also swallowed
and falls through to the routine-table fallback. -/
def get_last_weight (fetch : Except Unit (List (List PyVal))) (exercise_name : String) : Int :=
  let hist : Option Int :=
    match fetch with
    | Except.error _ => Option.none
    | Except.ok rows =>
        match (matchingHistory rows exercise_name).getLast? with
        | Option.none => Option.none
        | Option.some row => pyInt (rowNextWeight row)
  match hist with
  | Option.some w => w
  | Option.none => routineDefault exercise_name

/-- Outcome of the one `model.generate_content(prompt)` call:
`GeminiResponse.fail` models any exception raised by the call itself,
`GeminiResponse.ok text` a reply with text `text`. -/
inductive GeminiResponse : Type where
  | ok (text : String) : GeminiResponse
  | fail : GeminiResponse

/-- The fixed fallback message of `ask_gemini_coach`. -/
def FALLBACK_MESSAGE : String := "AI connection issue. Keeping weight same."

/-- The cleaning the code applies to the reply before `json.loads`:
`response.text.replace("```json", "").replace("```", "").strip()` — a global
deletion of every occurrence of the two fence markers, then a strip. -/
def cleanReply (text : String) : String :=
  pyStrip (pyReplace (pyReplace text "```json" "") "```" "")

/-- The fallback dictionary returned by `ask_gemini_coach`'s `except` arm. -/
def coachFallback (current_weight : Int) : PyVal :=
  PyVal.dict [("new_weight", PyVal.int current_weight),
              ("message", PyVal.str FALLBACK_MESSAGE)]

/-- `ask_gemini_coach(exercise, current_weight, difficulty)`.  The service
outcome is passed in explicitly; `exercise` and `difficulty` only feed the
prompt and do not influence the result.  Note the `try` block returns
`json.loads(clean_text)` directly: any value that parses as JSON is returned
as-is, with no check of its shape; the fallback fires only when the call or
`json.loads` raises. -/
def ask_gemini_coach (resp : GeminiResponse) (exercise : String)
    (current_weight : Int) (difficulty : String) : PyVal :=
  match resp with
  | GeminiResponse.fail => coachFallback current_weight
  | GeminiResponse.ok text =>
      match jsonLoads (cleanReply text) with
      | Option.some v => v
      | Option.none => coachFallback current_weight

/-- The `row_data` list built by the log action: the eight values in the fixed
column order Date, Exercise, Weight, Sets, Reps, Difficulty, Next_Weight,
Message.  The two dict subscripts `ai_result[...]` are unguarded in the
source; `Option.none` models the exception they raise when `ai_result` is not
a dict with both keys. -/
def row_data (today : String) (ex : ExerciseSpec) (actual_weight : Int)
    (difficulty : String) (ai_result : PyVal) : Option (List PyVal) := do
  let nw ← pyGetItem ai_result "new_weight"
  let msg ← pyGetItem ai_result "message"
  Option.some [PyVal.str today, PyVal.str ex.exercise, PyVal.int actual_weight,
    PyVal.int ex.sets, PyVal.str ex.reps, PyVal.str difficulty, nw, msg]

/-- `sheet.append_row(row_data)`: the remote store gains exactly the one new
row at the end. -/
def append_row (sheetRows : List (List PyVal)) (row : List PyVal) : List (List PyVal) :=
  sheetRows ++ [row]

/-- The whole confirmed log action (`st.button` branch): ask the coach, build
`row_data`, append it. -/
def logWorkout (sheetRows : List (List PyVal)) (today : String) (ex : ExerciseSpec)
    (actual_weight : Int) (difficulty : String) (resp : GeminiResponse) :
    Option (List (List PyVal)) := do
  let ai := ask_gemini_coach resp ex.exercise actual_weight difficulty
  let row ← row_data today ex actual_weight difficulty ai
  Option.some (append_row sheetRows row)

/-! ## Spec-side definitions used to state claims -/

/-- True of Python numbers (ints and floats). -/
def isNumber : PyVal → Bool
  | PyVal.int _ => true
  | PyVal.float _ => true
  | _ => false

/-- True of Python strings. -/
def isStrVal : PyVal → Bool
  | PyVal.str _ => true
  | _ => false

/-- Modelled from the spec: the "expected JSON shape" of an advisor reply —
an object with a numeric field `new_weight` and a string field `message`.
The source never checks this shape; the definition exists only to state the
claim about it. -/
def isExpectedShape (v : PyVal) : Bool :=
  match v with
  | PyVal.dict _ =>
      ((pyGetItem v "new_weight").map isNumber).getD false &&
      ((pyGetItem v "message").map isStrVal).getD false
  | _ => false

/-- The rational 45.5 = 91/2, given by its normal form so that it reduces
definitionally (`Rat` division does not). -/
def ratFortyFiveAndHalf : Rat := Rat.mk' 91 2 (by norm_num) (by norm_num)

/-- The normal-form literal really is 91/2. -/
theorem ratFortyFiveAndHalf_eq : ratFortyFiveAndHalf = 91 / 2 := by
  rw [ratFortyFiveAndHalf, Rat.mk'_eq_divInt, Rat.divInt_eq_div]
  norm_num

/-- A history row for "Machine Chest Press" whose `Next_Weight` cell holds the
fractional value 45.5 (as a spreadsheet float cell). -/
def fractionalRow : List PyVal :=
  [PyVal.str "2026-01-05", PyVal.str "Machine Chest Press", PyVal.int 45,
   PyVal.int 3, PyVal.str "8-10", PyVal.str "Perfect",
   PyVal.float ratFortyFiveAndHalf, PyVal.str "keep going"]

/-- A history row for "Machine Chest Press" whose `Next_Weight` cell holds a
string that `int()` cannot convert. -/
def garbageRow : List PyVal :=
  [PyVal.str "2026-01-06", PyVal.str "Machine Chest Press", PyVal.int 45,
   PyVal.int 3, PyVal.str "8-10", PyVal.str "Perfect",
   PyVal.str "oops", PyVal.str "sheet got edited"]

/-! ## Claims -/

/-- C1, counterexample.  The claim says the lookup returns the `Next_Weight`
value of the latest matching row itself.  With a single matching row whose
`Next_Weight` cell is the float 45.5, the code returns `int(45.5) = 45`, not
45.5: the returned number differs from the stored value. -/
theorem c1_counterexample :
    (matchingHistory [fractionalRow] "Machine Chest Press").getLast? =
      Option.some fractionalRow ∧
    rowNextWeight fractionalRow = PyVal.float ratFortyFiveAndHalf ∧
    get_last_weight (Except.ok [fractionalRow]) "Machine Chest Press" = 45 ∧
    ((45 : Rat) ≠ ratFortyFiveAndHalf) :=
  ⟨rfl, rfl, by decide, by decide⟩

/-- C1, amended: for every exercise name with one or more matching history
rows, `get_last_weight` returns `int()` of the `Next_Weight` value of the
matching row at the latest append position — the value itself when integral,
truncated toward zero when fractional — whenever that conversion succeeds,
regardless of the values of all other rows. -/
theorem c1_thm (rows : List (List PyVal)) (name : String) (row : List PyVal) (w : Int)
    (hlast : (matchingHistory rows name).getLast? = Option.some row)
    (hint : pyInt (rowNextWeight row) = Option.some w) :
    get_last_weight (Except.ok rows) name = w := by
  simp only [get_last_weight, hlast, hint]

/-- C1 witness: a two-row history where an unrelated exercise's row comes
last; the lookup returns the latest "Machine Chest Press" row's
`Next_Weight`. -/
theorem c1_witness :
    get_last_weight
      (Except.ok
        [[PyVal.str "2026-01-02", PyVal.str "Machine Chest Press", PyVal.int 45,
          PyVal.int 3, PyVal.str "8-10", PyVal.str "Perfect", PyVal.int 50,
          PyVal.str "solid"],
         [PyVal.str "2026-01-02", PyVal.str "Leg Press", PyVal.int 180,
          PyVal.int 3, PyVal.str "10-12", PyVal.str "Too Easy", PyVal.int 200,
          PyVal.str "more"]])
      "Machine Chest Press" = 50 :=
  c1_thm _ _ _ _ rfl rfl

/-- C2: for every exercise name present in `DEFAULT_ROUTINE` but with no
matching history row, `get_last_weight` returns exactly the `default_weight`
recorded for it in the routine table (the first match of the nested scan,
though no name repeats in the table). -/
theorem c2_thm (rows : List (List PyVal)) (name : String) (ex : ExerciseSpec)
    (hnone : matchingHistory rows name = [])
    (hspec : (DEFAULT_ROUTINE.map Prod.snd).flatten.find?
        (fun e => e.exercise == name) = Option.some ex) :
    get_last_weight (Except.ok rows) name = ex.default_weight := by
  simp only [get_last_weight, routineDefault, hnone, List.getLast?_nil, hspec]

/-- C2 witness: a history containing only other exercises' rows; the lookup
for "Pec Deck (Fly)" returns its table default 120. -/
theorem c2_witness :
    get_last_weight
      (Except.ok
        [[PyVal.str "2026-01-02", PyVal.str "Leg Press", PyVal.int 180,
          PyVal.int 3, PyVal.str "10-12", PyVal.str "Too Easy", PyVal.int 200,
          PyVal.str "more"]])
      "Pec Deck (Fly)" = 120 :=
  c2_thm _ _ ⟨"Pec Deck (Fly)", 3, "8-10", 120⟩ rfl rfl

/-- C3: the lookup never propagates a fault.  The embedding is a total
function into `Int`, and both modelled fault sources land in the
routine-table fallback `routineDefault` (the recorded default, or 0 for an
unknown name): a failing fetch (`Except.error`, covering every exception the
bare `except` swallows), and malformed data — a latest matching row whose
`Next_Weight` cell `int()` cannot convert. -/
theorem c3_thm (name : String) :
    get_last_weight (Except.error ()) name = routineDefault name ∧
    (∀ (rows : List (List PyVal)) (row : List PyVal),
      (matchingHistory rows name).getLast? = Option.some row →
      pyInt (rowNextWeight row) = Option.none →
      get_last_weight (Except.ok rows) name = routineDefault name) := by
  constructor
  · rfl
  · intro rows row hlast hint
    simp only [get_last_weight, hlast, hint]

/-- C3 witness: a failing fetch and an unconvertible `Next_Weight` cell both
yield the "Machine Chest Press" default 45. -/
theorem c3_witness :
    get_last_weight (Except.error ()) "Machine Chest Press" = 45 ∧
    get_last_weight (Except.ok [garbageRow]) "Machine Chest Press" = 45 :=
  ⟨((c3_thm "Machine Chest Press").1).trans (by decide),
   ((c3_thm "Machine Chest Press").2 [garbageRow] garbageRow rfl rfl).trans (by decide)⟩

/-- C6: for an exercise name matching no history row and absent from every
day's list of the routine table, the lookup returns 0 (for any fetch
outcome). -/
theorem c6_thm (fetch : Except Unit (List (List PyVal))) (name : String)
    (hhist : ∀ rows, fetch = Except.ok rows → matchingHistory rows name = [])
    (hspec : (DEFAULT_ROUTINE.map Prod.snd).flatten.find?
        (fun e => e.exercise == name) = Option.none) :
    get_last_weight fetch name = 0 := by
  cases fetch with
  | error e => simp only [get_last_weight, routineDefault, hspec]
  | ok rows =>
      simp only [get_last_weight, routineDefault, hhist rows rfl,
        List.getLast?_nil, hspec]

/-- C6 witness: "Barbell Squat" is in no history row and in no day's list,
so the lookup returns 0. -/
theorem c6_witness :
    get_last_weight
      (Except.ok
        [[PyVal.str "2026-01-02", PyVal.str "Leg Press", PyVal.int 180,
          PyVal.int 3, PyVal.str "10-12", PyVal.str "Too Easy", PyVal.int 200,
          PyVal.str "more"]])
      "Barbell Squat" = 0 :=
  c6_thm _ _ (fun rows h => by cases h; rfl) rfl

/-- C9: the lookup always returns an integer — its embedding has result type
`Int` — obtained from the latest matching row as follows: a fractional
`Next_Weight` cell is truncated toward zero (Python `int(float)`), and a cell
`int()` cannot convert at all makes the code swallow the `ValueError` and
fall back to the routine-table default instead of returning the stored
value. -/
theorem c9_thm (rows : List (List PyVal)) (name : String) (row : List PyVal)
    (hlast : (matchingHistory rows name).getLast? = Option.some row) :
    (∀ q : Rat, rowNextWeight row = PyVal.float q →
        get_last_weight (Except.ok rows) name = ratTruncTowardZero q) ∧
    (pyInt (rowNextWeight row) = Option.none →
        get_last_weight (Except.ok rows) name = routineDefault name) := by
  constructor
  · intro q hq
    simp only [get_last_weight, hlast, pyInt, hq]
  · intro hnone
    simp only [get_last_weight, hlast, hnone]

/-- C9 witness: a stored 45.5 is returned as 45, and a stored non-numeric
string falls back to the "Machine Chest Press" default 45. -/
theorem c9_witness :
    get_last_weight (Except.ok [fractionalRow]) "Machine Chest Press" =
      ratTruncTowardZero ratFortyFiveAndHalf ∧
    get_last_weight (Except.ok [garbageRow, fractionalRow, garbageRow])
      "Machine Chest Press" = routineDefault "Machine Chest Press" :=
  ⟨(c9_thm [fractionalRow] "Machine Chest Press" fractionalRow rfl).1
      ratFortyFiveAndHalf rfl,
   (c9_thm [garbageRow, fractionalRow, garbageRow] "Machine Chest Press"
      garbageRow rfl).2 rfl⟩

/-- C4, counterexample.  The claim says a reply that is not parseable as the
expected JSON shape yields the fallback.  The reply "[1, 2, 3]" is valid JSON
but not an object with `new_weight` and `message`; the code returns the
parsed list as-is, not the fallback — `json.loads`'s result is returned with
no shape check. -/
theorem c4_counterexample :
    ask_gemini_coach (GeminiResponse.ok "[1, 2, 3]") "Machine Chest Press" 50 "Perfect" =
      PyVal.list [PyVal.int 1, PyVal.int 2, PyVal.int 3] ∧
    isExpectedShape (PyVal.list [PyVal.int 1, PyVal.int 2, PyVal.int 3]) = false ∧
    PyVal.list [PyVal.int 1, PyVal.int 2, PyVal.int 3] ≠ coachFallback 50 :=
  ⟨rfl, rfl, fun h => PyVal.noConfusion h⟩

/-- C4, amended: the fallback `{new_weight: the input weight unchanged,
message: the fixed "AI connection issue" string}` is returned exactly when
the call fails or the cleaned reply is not parseable as JSON at all, after a
single attempt with no retry (the model consumes one service outcome); a
reply that parses as JSON is returned unchanged, even when it is not an
object with fields `new_weight` and `message`. -/
theorem c4_thm (exercise : String) (current_weight : Int) (difficulty : String) :
    ask_gemini_coach GeminiResponse.fail exercise current_weight difficulty =
      coachFallback current_weight ∧
    (∀ text, jsonLoads (cleanReply text) = Option.none →
      ask_gemini_coach (GeminiResponse.ok text) exercise current_weight difficulty =
        coachFallback current_weight) ∧
    (∀ text v, jsonLoads (cleanReply text) = Option.some v →
      ask_gemini_coach (GeminiResponse.ok text) exercise current_weight difficulty = v) := by
  refine ⟨rfl, fun text h => ?_, fun text v h => ?_⟩
  · simp only [ask_gemini_coach, h]
  · simp only [ask_gemini_coach, h]

/-- C4 witness: a failed call and an unparseable reply both yield the
fallback; a valid-JSON array is returned as-is. -/
theorem c4_witness :
    ask_gemini_coach GeminiResponse.fail "Seated Cable Row" 60 "Too Easy" =
      coachFallback 60 ∧
    ask_gemini_coach (GeminiResponse.ok "no advice today") "Seated Cable Row" 60 "Too Easy" =
      coachFallback 60 ∧
    ask_gemini_coach (GeminiResponse.ok "[4, 5]") "Seated Cable Row" 60 "Too Easy" =
      PyVal.list [PyVal.int 4, PyVal.int 5] :=
  ⟨(c4_thm "Seated Cable Row" 60 "Too Easy").1,
   (c4_thm "Seated Cable Row" 60 "Too Easy").2.1 "no advice today" rfl,
   (c4_thm "Seated Cable Row" 60 "Too Easy").2.2 "[4, 5]"
      (PyVal.list [PyVal.int 4, PyVal.int 5]) rfl⟩

/-- The canonical well-formed advisor reply body with `new_weight` 50 and
`message` "Good work". -/
def goodReplyBody : String :=
  "\x7b\"new_weight\": 50, \"message\": \"Good work\"\x7d"

/-- C5: a reply consisting of the well-formed JSON object with `new_weight`
50 and `message` "Good work", optionally wrapped in a ```json ... ```
code fence, is returned exactly as `{new_weight: 50, message: "Good
work"}` (for any exercise, weight and difficulty). -/
theorem c5_thm (pre post : String)
    (hpre : pre = "" ∨ pre = "```json\n")
    (hpost : post = "" ∨ post = "\n```")
    (exercise : String) (current_weight : Int) (difficulty : String) :
    ask_gemini_coach (GeminiResponse.ok (pre ++ goodReplyBody ++ post))
        exercise current_weight difficulty =
      PyVal.dict [("new_weight", PyVal.int 50), ("message", PyVal.str "Good work")] := by
  rcases hpre with h | h <;> rcases hpost with h' | h' <;> subst h <;> subst h' <;> rfl

/-- C5 witness: the fully fenced reply returns `{50, "Good work"}`. -/
theorem c5_witness :
    ask_gemini_coach (GeminiResponse.ok ("```json\n" ++ goodReplyBody ++ "\n```"))
        "Machine Chest Press" 45 "Too Easy" =
      PyVal.dict [("new_weight", PyVal.int 50), ("message", PyVal.str "Good work")] :=
  c5_thm "```json\n" "\n```" (Or.inr rfl) (Or.inr rfl)
    "Machine Chest Press" 45 "Too Easy"

/-- The "Machine Chest Press" entry of the Push day. -/
def machineChestPress : ExerciseSpec :=
  ⟨"Machine Chest Press", 3, "8-10", 45⟩

/-- C7: every confirmed log action appends the eight values (today's date,
exercise name, weight used, planned sets, planned reps, difficulty label,
advisor's `new_weight`, advisor's `message`) in the fixed column order Date,
Exercise, Weight, Sets, Reps, Difficulty, Next_Weight, Message; and in the
scenario — day "Push", "Machine Chest Press" with no prior history (suggested
weight 45), user weight 50, difficulty "Too Easy", advisor `new_weight` 55 —
the appended row carries weight 50, next weight 55, difficulty "Too Easy"
and the day's date. -/
theorem c7_thm :
    (∀ (sheetRows : List (List PyVal)) (today : String) (ex : ExerciseSpec)
        (actual_weight : Int) (difficulty : String) (resp : GeminiResponse)
        (nw msg : PyVal),
      pyGetItem (ask_gemini_coach resp ex.exercise actual_weight difficulty)
          "new_weight" = Option.some nw →
      pyGetItem (ask_gemini_coach resp ex.exercise actual_weight difficulty)
          "message" = Option.some msg →
      logWorkout sheetRows today ex actual_weight difficulty resp =
        Option.some (append_row sheetRows
          [PyVal.str today, PyVal.str ex.exercise, PyVal.int actual_weight,
           PyVal.int ex.sets, PyVal.str ex.reps, PyVal.str difficulty, nw, msg])) ∧
    (machineChestPress ∈
        ((DEFAULT_ROUTINE.find? (fun d => d.fst == "Push")).map Prod.snd).getD [] ∧
     get_last_weight (Except.ok []) "Machine Chest Press" = 45 ∧
     logWorkout [] "2026-10-12" machineChestPress 50 "Too Easy"
        (GeminiResponse.ok "\x7b\"new_weight\": 55, \"message\": \"Go up\"\x7d") =
       Option.some [[PyVal.str "2026-10-12", PyVal.str "Machine Chest Press",
         PyVal.int 50, PyVal.int 3, PyVal.str "8-10", PyVal.str "Too Easy",
         PyVal.int 55, PyVal.str "Go up"]]) := by
  constructor
  · intro sheetRows today ex actual_weight difficulty resp nw msg hnw hmsg
    simp only [logWorkout, row_data, hnw, hmsg, Option.bind_eq_bind,
      Option.some_bind, append_row]
  · exact ⟨by decide, by decide, by rfl⟩

/-- C7 witness: a concrete log action appends exactly the expected row. -/
theorem c7_witness :
    logWorkout [[PyVal.str "2026-01-01", PyVal.str "Leg Press", PyVal.int 180,
        PyVal.int 3, PyVal.str "10-12", PyVal.str "Perfect", PyVal.int 185,
        PyVal.str "ok"]]
      "2026-01-08" ⟨"Leg Press", 3, "10-12", 180⟩ 185 "Perfect"
      (GeminiResponse.ok "\x7b\"new_weight\": 190, \"message\": \"Add more\"\x7d") =
      Option.some (append_row
        [[PyVal.str "2026-01-01", PyVal.str "Leg Press", PyVal.int 180,
          PyVal.int 3, PyVal.str "10-12", PyVal.str "Perfect", PyVal.int 185,
          PyVal.str "ok"]]
        [PyVal.str "2026-01-08", PyVal.str "Leg Press", PyVal.int 185,
         PyVal.int 3, PyVal.str "10-12", PyVal.str "Perfect", PyVal.int 190,
         PyVal.str "Add more"]) :=
  c7_thm.1 _ _ ⟨"Leg Press", 3, "10-12", 180⟩ 185 "Perfect" _ _ _ rfl rfl

/-- C8: `append_row` appends exactly one row — the store grows by one, every
existing position is unchanged — and it is not idempotent: two invocations
with identical inputs leave two separate copies of the row at the end of the
store. -/
theorem c8_thm (sheetRows : List (List PyVal)) (row : List PyVal) :
    (append_row sheetRows row).length = sheetRows.length + 1 ∧
    (∀ i, i < sheetRows.length → (append_row sheetRows row)[i]? = sheetRows[i]?) ∧
    append_row (append_row sheetRows row) row = sheetRows ++ [row, row] := by
  refine ⟨by simp [append_row], fun i h => ?_, by simp [append_row]⟩
  simp [append_row, List.getElem?_append_left h]

/-- C8 witness: appending to a one-row store gives length 2, keeps position
0, and a second identical append leaves two copies. -/
theorem c8_witness :
    (append_row [[PyVal.str "a"]] [PyVal.str "b"]).length = 2 ∧
    (append_row [[PyVal.str "a"]] [PyVal.str "b"])[0]? = [[PyVal.str "a"]][0]? ∧
    append_row (append_row [[PyVal.str "a"]] [PyVal.str "b"]) [PyVal.str "b"] =
      [[PyVal.str "a"]] ++ [[PyVal.str "b"], [PyVal.str "b"]] :=
  ⟨(c8_thm [[PyVal.str "a"]] [PyVal.str "b"]).1,
   (c8_thm [[PyVal.str "a"]] [PyVal.str "b"]).2.1 0 (by decide),
   (c8_thm [[PyVal.str "a"]] [PyVal.str "b"]).2.2⟩

/-- A well-formed JSON reply whose `message` string itself contains a code
fence. -/
def fencedMessageReply : String :=
  "\x7b\"new_weight\": 50, \"message\": \"see ``` above\"\x7d"

/-- C10: the fence stripping is a global substring removal, not an unwrapping
of outer fences.  `fencedMessageReply` is well-formed JSON whose `message` is
"see ``` above"; the cleaning deletes the inner fence before parsing, so the
advisor returns the message "see  above", different from the original
reply's message field. -/
theorem c10_thm :
    jsonLoads fencedMessageReply =
      Option.some (PyVal.dict [("new_weight", PyVal.int 50),
        ("message", PyVal.str "see ``` above")]) ∧
    cleanReply fencedMessageReply =
      "\x7b\"new_weight\": 50, \"message\": \"see  above\"\x7d" ∧
    ask_gemini_coach (GeminiResponse.ok fencedMessageReply)
        "Machine Chest Press" 50 "Perfect" =
      PyVal.dict [("new_weight", PyVal.int 50), ("message", PyVal.str "see  above")] ∧
    ("see  above" : String) ≠ "see ``` above" :=
  ⟨rfl, rfl, rfl, by decide⟩
